import Mathlib

/-!
# Verification of the F1 lap-times analysis pipeline

Shallow embedding of `src/engineering/f1_lap_times_pipeline.py`
(class `F1LapTimesProcessor`) and proofs of the specification claims.

Modelling conventions:
* pandas floating-point lap times are modelled as exact rationals (`ℚ`);
* a raw pandas `DataFrame` (before extraction of typed records) is a list
  of named columns of cell values (`RawFrame`); a validated table is a
  list of `(driver, time)` records;
* the four `ValueError`s raised by `validate_data` and the two
  `ValueError`s guarding `transform` / `get_top_n` are modelled as
  distinct constructors of `PipelineError` (the spec's taxonomy names
  them `SchemaError`, `EmptyInputError`, `TypeError`, `RangeError` and
  `PreconditionError`; `preconditionNoData` and `preconditionNoResults`
  are both the spec's `PreconditionError`);
* `numpy`/pandas `.round(3)` is modelled as decimal round-half-to-even
  (`roundHalfEven`), numpy's documented rounding rule;
* `groupby('Driver')` uses pandas' default `sort=True`, so group keys are
  produced in ascending driver-name order (`groupKeys`);
* `sort_values('average_time')` is modelled with a stable sort
  (`List.insertionSort`); pandas' default `kind='quicksort'` is not
  guaranteed stable, which only affects the relative order of drivers
  with exactly equal (unrounded) mean times.
-/

namespace F1

/-- A cell of a raw pandas DataFrame: either numeric or a string. -/
inductive Value where
  | num (q : ℚ)
  | str (s : String)
deriving DecidableEq

/-- Whether a cell is numeric; a column is of numeric dtype
(`pd.api.types.is_numeric_dtype`) iff all its cells are numeric. -/
def Value.isNum : Value → Bool
  | .num _ => true
  | .str _ => false

/-- Numeric content of a cell (only meaningful on `num` cells). -/
def Value.toQ : Value → ℚ
  | .num q => q
  | .str _ => 0

/-- A raw DataFrame: named columns of cells, as read by `pd.read_csv`
before validation. -/
structure RawFrame where
  cols : List (String × List Value)
deriving DecidableEq

/-- The column names (`df.columns`). -/
def RawFrame.names (f : RawFrame) : List String :=
  f.cols.map Prod.fst

/-- A column by name (`df[name]`); the schema check guarantees presence
before this is used, so the `[]` default is never reached in the code. -/
def RawFrame.col (f : RawFrame) (name : String) : List Value :=
  ((f.cols.find? (fun c => c.1 == name)).map Prod.snd).getD []

/-- Number of rows (all pandas columns have equal length; the first
column's length is the row count). -/
def RawFrame.nrows (f : RawFrame) : ℕ :=
  match f.cols with
  | [] => 0
  | c :: _ => c.2.length

/-- `df.empty`: true iff some axis has length zero. -/
def RawFrame.isEmpty (f : RawFrame) : Bool :=
  f.cols.isEmpty || f.nrows == 0

/-- The distinct `ValueError`s raised by the pipeline, one constructor
per raise site of `f1_lap_times_pipeline.py` (the spec names them
`SchemaError`, `EmptyInputError`, `TypeError`, `RangeError`, and
`PreconditionError` for both precondition constructors). -/
inductive PipelineError where
  | schemaError          -- "Missing required columns. Expected: ['Driver', 'Time']"
  | emptyInputError      -- "Input file is empty"
  | typeError            -- "Time column must contain numeric values"
  | rangeError           -- "Time values cannot be negative"
  | preconditionNoData   -- "No data loaded. Call extract() first."
  | preconditionNoResults -- "No results available. Call transform() first."
deriving DecidableEq

/-- `F1LapTimesProcessor.validate_data`: required columns, non-empty,
numeric `Time` dtype, no negative times — in that order, first failure
aborts. -/
def validate_data (f : RawFrame) : Except PipelineError Bool :=
  if ¬ ("Driver" ∈ f.names ∧ "Time" ∈ f.names) then
    .error .schemaError
  else if f.isEmpty then
    .error .emptyInputError
  else if ¬ (f.col "Time").all Value.isNum then
    .error .typeError
  else if (f.col "Time").any (fun v => decide (v.toQ < 0)) then
    .error .rangeError
  else
    .ok true

/-- One row of the `driver_stats` DataFrame built by `transform`.
`rank := 0` stands for "column not yet added" in pre-ranking stages. -/
structure DriverStats where
  driver : String
  average_time : ℚ
  fastest_time : ℚ
  lap_count : ℕ
  rank : ℕ
deriving DecidableEq

/-- Decimal round-half-to-even to an integer (numpy's rounding rule). -/
def rhe (x : ℚ) : ℤ :=
  if x - ⌊x⌋ < 1/2 then ⌊x⌋
  else if 1/2 < x - ⌊x⌋ then ⌊x⌋ + 1
  else if Even ⌊x⌋ then ⌊x⌋ else ⌊x⌋ + 1

/-- `.round(3)`: round to 3 decimal places. -/
def round3 (q : ℚ) : ℚ := (rhe (q * 1000) : ℚ) / 1000

/-- A validated record: one `(Driver, Time)` row. -/
abbrev LapRecord := String × ℚ

/-- The lap times of one driver, in row order
(`self.data[self.data['Driver'] == d]['Time']`). -/
def driverTimes (data : List LapRecord) (d : String) : List ℚ :=
  (data.filter (fun r => r.1 == d)).map Prod.snd

/-- Group keys of `self.data.groupby('Driver')`: the distinct drivers in
ascending name order (pandas groupby's default `sort=True`). -/
def groupKeys (data : List LapRecord) : List String :=
  List.insertionSort (fun a b => a ≤ b) (data.map Prod.fst).dedup

/-- Minimum of a list of times (`'min'` aggregation; groups are never
empty, so the `[]` default is never reached). -/
def listMin : List ℚ → ℚ
  | [] => 0
  | x :: xs => xs.foldl min x

/-- The `groupby('Driver').agg(...)` stage: one row per distinct driver
with mean, min and count of its times (`rank` not yet assigned). -/
def aggStats (data : List LapRecord) : List DriverStats :=
  (groupKeys data).map fun d =>
    let ts := driverTimes data d
    { driver := d
      average_time := ts.sum / (ts.length : ℚ)
      fastest_time := listMin ts
      lap_count := ts.length
      rank := 0 }

/-- Comparison used by `sort_values('average_time', ascending=True)`. -/
def avgLE (a b : DriverStats) : Prop := a.average_time ≤ b.average_time

instance : DecidableRel avgLE := fun a b =>
  inferInstanceAs (Decidable (a.average_time ≤ b.average_time))

instance : IsTotal DriverStats avgLE :=
  ⟨fun a b => le_total a.average_time b.average_time⟩

instance : IsTrans DriverStats avgLE := ⟨fun _ _ _ => le_trans⟩

/-- `driver_stats['rank'] = range(1, len(driver_stats) + 1)`: rank the
rows in their current (sorted) order, starting at `i`. -/
def assignRanks : ℕ → List DriverStats → List DriverStats
  | _, [] => []
  | i, s :: rest => { s with rank := i } :: assignRanks (i + 1) rest

/-- The final rounding step of `transform`: round `average_time` and
`fastest_time` to 3 decimals. -/
def roundStats (s : DriverStats) : DriverStats :=
  { s with average_time := round3 s.average_time
           fastest_time := round3 s.fastest_time }

/-- The pure content of `F1LapTimesProcessor.transform` on loaded data:
group/aggregate, sort ascending by mean, add ranks 1.., round times. -/
def transformStats (data : List LapRecord) : List DriverStats :=
  (assignRanks 1 (List.insertionSort avgLE (aggStats data))).map roundStats

/-- The mutable state of an `F1LapTimesProcessor`: `self.data` and
`self.results` (both `None` until set by `extract` / `transform`). -/
structure Processor where
  data : Option (List LapRecord)
  results : Option (List DriverStats)
deriving DecidableEq

/-- `F1LapTimesProcessor.transform`: fails if no data is loaded,
otherwise stores and returns the driver statistics. -/
def transform (p : Processor) : Except PipelineError (Processor × List DriverStats) :=
  match p.data with
  | none => .error .preconditionNoData
  | some data =>
    let stats := transformStats data
    .ok ({ p with results := some stats }, stats)

/-- `DataFrame.head(n)`: first `n` rows for `n ≥ 0`; for `n < 0`, all
rows but the last `|n|`. -/
def dfHead (n : ℤ) (l : List DriverStats) : List DriverStats :=
  if 0 ≤ n then l.take n.toNat else l.take (l.length - (-n).toNat)

/-- `F1LapTimesProcessor.get_top_n`: fails if no results are available,
otherwise `self.results.head(n)`. -/
def get_top_n (p : Processor) (n : ℤ) : Except PipelineError (List DriverStats) :=
  match p.results with
  | none => .error .preconditionNoResults
  | some results => .ok (dfHead n results)

/-- The JSON summary object written by `load_json`. -/
structure Summary where
  top_drivers : List DriverStats
  total_drivers_analyzed : ℕ
  total_laps_analyzed : ℕ
deriving DecidableEq

/-- `F1LapTimesProcessor.load_json`: the structured summary — top-N rows,
`len(self.results)` and `self.data['Driver'].count()` (the `getD []`
defaults are unreachable: `get_top_n` succeeding means `self.results`
is set, which the pipeline only does after `self.data` is set). -/
def load_json (p : Processor) (n : ℤ) : Except PipelineError Summary :=
  (get_top_n p n).map fun top =>
    { top_drivers := top
      total_drivers_analyzed := (p.results.getD []).length
      total_laps_analyzed := (p.data.getD []).length }

/-- The concrete 8-row scenario of the spec (also the unit tests'
fixture). -/
def sampleRecords : List LapRecord :=
  [("Hamilton", 4.32), ("Verstappen", 4.28), ("Hamilton", 4.45),
   ("Verstappen", 4.31), ("Leclerc", 4.50), ("Hamilton", 4.38),
   ("Leclerc", 4.48), ("Verstappen", 4.29)]

/-- The driver statistics the pipeline computes on `sampleRecords`. -/
def sampleExpected : List DriverStats :=
  [⟨"Verstappen", 4.293, 4.28, 3, 1⟩,
   ⟨"Hamilton", 4.383, 4.32, 3, 2⟩,
   ⟨"Leclerc", 4.49, 4.48, 2, 3⟩]

/-! ## Helper lemmas -/

lemma rhe_floor_le (x : ℚ) : ⌊x⌋ ≤ rhe x := by
  unfold rhe; split_ifs <;> omega

lemma rhe_le_floor_succ (x : ℚ) : rhe x ≤ ⌊x⌋ + 1 := by
  unfold rhe; split_ifs <;> omega

lemma rhe_mono {x y : ℚ} (h : x ≤ y) : rhe x ≤ rhe y := by
  rcases eq_or_lt_of_le (Int.floor_le_floor h) with hf | hf
  · unfold rhe
    rw [← hf]
    split_ifs <;> first | omega | linarith
  · calc rhe x ≤ ⌊x⌋ + 1 := rhe_le_floor_succ x
      _ ≤ ⌊y⌋ := by omega
      _ ≤ rhe y := rhe_floor_le y

lemma round3_mono {x y : ℚ} (h : x ≤ y) : round3 x ≤ round3 y := by
  unfold round3
  have h1 : rhe (x * 1000) ≤ rhe (y * 1000) := rhe_mono (by linarith)
  have h2 : ((rhe (x * 1000) : ℚ)) ≤ (rhe (y * 1000) : ℚ) := by exact_mod_cast h1
  gcongr

lemma assignRanks_length (i : ℕ) (l : List DriverStats) :
    (assignRanks i l).length = l.length := by
  induction l generalizing i with
  | nil => rfl
  | cons s rest ih => simp [assignRanks, ih]

lemma assignRanks_map_rank (i : ℕ) (l : List DriverStats) :
    (assignRanks i l).map (fun s => s.rank) = List.range' i l.length := by
  induction l generalizing i with
  | nil => rfl
  | cons s rest ih => simp [assignRanks, List.range'_succ, ih]

lemma assignRanks_map {β : Type} (f : DriverStats → β)
    (hf : ∀ s i, f { s with rank := i } = f s) (i : ℕ) (l : List DriverStats) :
    (assignRanks i l).map f = l.map f := by
  induction l generalizing i with
  | nil => rfl
  | cons s rest ih => simp [assignRanks, hf, ih]

lemma transformStats_map_lap (data : List LapRecord) :
    (transformStats data).map (fun s => s.lap_count) =
      (List.insertionSort avgLE (aggStats data)).map (fun s => s.lap_count) := by
  unfold transformStats
  rw [List.map_map]
  exact assignRanks_map (fun s => (roundStats s).lap_count) (fun s i => rfl) 1 _

lemma transformStats_map_avg (data : List LapRecord) :
    (transformStats data).map (fun s => s.average_time) =
      (List.insertionSort avgLE (aggStats data)).map (fun s => round3 s.average_time) := by
  unfold transformStats
  rw [List.map_map]
  exact assignRanks_map (fun s => (roundStats s).average_time) (fun s i => rfl) 1 _

lemma transformStats_map_rank (data : List LapRecord) :
    (transformStats data).map (fun s => s.rank) =
      List.range' 1 (transformStats data).length := by
  unfold transformStats
  rw [List.map_map, List.length_map, assignRanks_length]
  exact assignRanks_map_rank 1 _

lemma transformStats_length (data : List LapRecord) :
    (transformStats data).length = (data.map Prod.fst).dedup.length := by
  unfold transformStats
  rw [List.length_map, assignRanks_length,
    (List.perm_insertionSort avgLE _).length_eq]
  unfold aggStats
  rw [List.length_map]
  unfold groupKeys
  exact (List.perm_insertionSort _ _).length_eq

lemma transformStats_sorted (data : List LapRecord) :
    List.Sorted (fun a b : ℚ => a ≤ b)
      ((transformStats data).map (fun s => s.average_time)) := by
  rw [transformStats_map_avg]
  exact (List.sorted_insertionSort avgLE (aggStats data)).map _
    (fun a b hab => round3_mono hab)

lemma sum_map_ite_eq (a : String) (ks : List String) (hnd : ks.Nodup) (ha : a ∈ ks) :
    (ks.map (fun d => if a == d then (1 : ℕ) else 0)).sum = 1 := by
  induction ks with
  | nil => cases ha
  | cons k ks ih =>
    simp only [beq_iff_eq] at ih ⊢
    rcases List.mem_cons.1 ha with h | h
    · subst h
      have hz : (ks.map (fun d => if a = d then (1 : ℕ) else 0)).sum = 0 := by
        refine List.sum_eq_zero ?_
        intro x hx
        obtain ⟨d, hd, rfl⟩ := List.mem_map.1 hx
        have hne : a ≠ d := by
          rintro rfl; exact (List.nodup_cons.1 hnd).1 hd
        simp [hne]
      simp [hz]
    · have hne : a ≠ k := by
        rintro rfl; exact (List.nodup_cons.1 hnd).1 h
      have hrec := ih (List.nodup_cons.1 hnd).2 h
      simp [hne, hrec]

lemma sum_countP_keys (l : List LapRecord) (ks : List String) (hnd : ks.Nodup)
    (hm : ∀ r ∈ l, r.1 ∈ ks) :
    (ks.map (fun d => l.countP (fun r => r.1 == d))).sum = l.length := by
  induction l with
  | nil => simp
  | cons r l ih =>
    have hr : r.1 ∈ ks := hm r (List.mem_cons_self r l)
    have ih' := ih (fun s hs => hm s (List.mem_cons_of_mem r hs))
    have hsplit : ks.map (fun d => (r :: l).countP (fun x => x.1 == d)) =
        ks.map (fun d =>
          l.countP (fun x => x.1 == d) + if r.1 == d then 1 else 0) := by
      refine List.map_congr_left (fun d _ => ?_)
      rw [List.countP_cons]
    rw [hsplit, List.sum_map_add, ih', sum_map_ite_eq r.1 ks hnd hr]
    simp

/-! ## Claim theorems -/

/-- C1: on the concrete 8-row input, `transform` produces
Verstappen (average 4.293, fastest 4.28, rank 1), Hamilton
(average 4.383, rank 2), Leclerc (average 4.49, rank 3), and the
structured summary reports 3 drivers and 8 laps analyzed. -/
theorem sample_scenario :
    transform ⟨some sampleRecords, none⟩ =
      .ok (⟨some sampleRecords, some sampleExpected⟩, sampleExpected) ∧
    load_json ⟨some sampleRecords, some sampleExpected⟩ 3 =
      .ok ⟨sampleExpected, 3, 8⟩ :=
  ⟨by with_unfolding_all rfl, by with_unfolding_all rfl⟩

/-- C4: invoking `transform` before data is loaded, or `get_top_n`
before results exist, fails with the corresponding precondition
`ValueError` (the spec's `PreconditionError`), producing no result. -/
theorem precondition_errors :
    (∀ r : Option (List DriverStats),
      transform ⟨none, r⟩ = .error .preconditionNoData) ∧
    (∀ (d : Option (List LapRecord)) (n : ℤ),
      get_top_n ⟨d, none⟩ n = .error .preconditionNoResults) :=
  ⟨fun _ => rfl, fun _ _ => rfl⟩

theorem precondition_errors_witness :
    transform ⟨none, none⟩ = .error .preconditionNoData ∧
    get_top_n ⟨none, none⟩ 3 = .error .preconditionNoResults :=
  ⟨precondition_errors.1 none, precondition_errors.2 none 3⟩

/-- C5: for every input, the ranks of the transformed statistics are
exactly `1, 2, ..., K` in order (no gaps, no duplicates), `K` is the
number of distinct drivers, and the `average_time` column is
non-decreasing in rank order. -/
theorem ranks_dense_and_sorted (data : List LapRecord) :
    (transformStats data).map (fun s => s.rank) =
      List.range' 1 (transformStats data).length ∧
    (transformStats data).length = (data.map Prod.fst).dedup.length ∧
    List.Sorted (fun a b : ℚ => a ≤ b)
      ((transformStats data).map (fun s => s.average_time)) :=
  ⟨transformStats_map_rank data, transformStats_length data,
   transformStats_sorted data⟩

theorem ranks_dense_and_sorted_witness :
    (transformStats sampleRecords).map (fun s => s.rank) =
      List.range' 1 (transformStats sampleRecords).length ∧
    (transformStats sampleRecords).length =
      (sampleRecords.map Prod.fst).dedup.length ∧
    List.Sorted (fun a b : ℚ => a ≤ b)
      ((transformStats sampleRecords).map (fun s => s.average_time)) :=
  ranks_dense_and_sorted sampleRecords

/-- C6: for every input, the `lap_count` values of the aggregated
statistics sum to the number of input records. -/
theorem lap_count_sum_eq_record_count (data : List LapRecord) :
    ((transformStats data).map (fun s => s.lap_count)).sum = data.length := by
  rw [transformStats_map_lap,
    List.Perm.sum_eq ((List.perm_insertionSort avgLE (aggStats data)).map _)]
  have hagg : (aggStats data).map (fun s => s.lap_count) =
      (groupKeys data).map (fun d => data.countP (fun r => r.1 == d)) := by
    unfold aggStats
    rw [List.map_map]
    refine List.map_congr_left (fun d _ => ?_)
    show (driverTimes data d).length = _
    unfold driverTimes
    rw [List.length_map, ← List.countP_eq_length_filter]
  have hperm : ((groupKeys data).map
        (fun d => data.countP (fun r => r.1 == d))).sum =
      (((data.map Prod.fst).dedup).map
        (fun d => data.countP (fun r => r.1 == d))).sum :=
    List.Perm.sum_eq ((List.perm_insertionSort _ _).map _)
  rw [hagg, hperm]
  exact sum_countP_keys data _ (List.nodup_dedup _)
    (fun r hr => List.mem_dedup.2 (List.mem_map_of_mem Prod.fst hr))

theorem lap_count_sum_witness :
    ((transformStats sampleRecords).map (fun s => s.lap_count)).sum =
      sampleRecords.length :=
  lap_count_sum_eq_record_count sampleRecords

/-- C7: for every non-empty input, some statistic carries rank 1, and
any statistic with rank 1 has the minimum `average_time` of the whole
result. -/
theorem rank_one_has_min_average (data : List LapRecord) (h : data ≠ []) :
    (∃ s ∈ transformStats data, s.rank = 1) ∧
    ∀ s ∈ transformStats data, s.rank = 1 →
      ∀ t ∈ transformStats data, s.average_time ≤ t.average_time := by
  have hpos : 0 < (transformStats data).length := by
    rw [transformStats_length]
    rcases data with _ | ⟨r, tl⟩
    · exact absurd rfl h
    · exact List.length_pos.2 (List.ne_nil_of_mem
        (List.mem_dedup.2 (List.mem_map_of_mem Prod.fst (List.mem_cons_self r tl))))
  obtain ⟨s0, rest, hs⟩ : ∃ s0 rest, transformStats data = s0 :: rest := by
    rcases hss : transformStats data with _ | ⟨a, l⟩
    · rw [hss] at hpos; simp at hpos
    · exact ⟨a, l, rfl⟩
  have hrank := transformStats_map_rank data
  rw [hs] at hrank
  simp only [List.map_cons, List.length_cons, List.range'_succ] at hrank
  have hs0rank : s0.rank = 1 := (List.cons_eq_cons.1 hrank).1
  have hnd : ((transformStats data).map (fun s => s.rank)).Nodup := by
    rw [transformStats_map_rank]
    exact List.nodup_range' 1 _
  have hsort := transformStats_sorted data
  rw [hs, List.map_cons] at hsort
  have hs0mem : s0 ∈ transformStats data := by
    rw [hs]; exact List.mem_cons_self s0 rest
  have huniq : ∀ s ∈ transformStats data, s.rank = 1 → s = s0 := by
    intro s hsmem hsr
    exact List.inj_on_of_nodup_map hnd hsmem hs0mem (by rw [hsr, hs0rank])
  refine ⟨⟨s0, hs0mem, hs0rank⟩, ?_⟩
  intro s hsmem hsr t htmem
  rw [huniq s hsmem hsr]
  rw [hs] at htmem
  rcases List.mem_cons.1 htmem with rfl | ht
  · exact le_refl _
  · exact List.rel_of_sorted_cons hsort _ (List.mem_map_of_mem _ ht)

theorem rank_one_min_witness :
    (∃ s ∈ transformStats sampleRecords, s.rank = 1) ∧
    ∀ s ∈ transformStats sampleRecords, s.rank = 1 →
      ∀ t ∈ transformStats sampleRecords, s.average_time ≤ t.average_time :=
  rank_one_has_min_average sampleRecords (by simp [sampleRecords])

/-- C8: for every input and requested count `n ≥ 0`, `get_top_n`
returns all `K` rows when `K ≤ n` and exactly the first `n` ranked
rows when `n < K`. -/
theorem top_n_clamps_to_driver_count (data : List LapRecord) (n : ℕ) :
    ((transformStats data).length ≤ n →
      get_top_n ⟨some data, some (transformStats data)⟩ (n : ℤ) =
        .ok (transformStats data)) ∧
    (n < (transformStats data).length →
      get_top_n ⟨some data, some (transformStats data)⟩ (n : ℤ) =
        .ok ((transformStats data).take n)) := by
  have hred : get_top_n ⟨some data, some (transformStats data)⟩ (n : ℤ) =
      .ok ((transformStats data).take n) := by
    show Except.ok (dfHead (n : ℤ) (transformStats data)) = _
    unfold dfHead
    rw [if_pos (Int.natCast_nonneg n), Int.toNat_natCast]
  exact ⟨fun hK => by rw [hred, List.take_of_length_le hK], fun _ => hred⟩

theorem top_n_clamp_witness :
    get_top_n ⟨some sampleRecords, some (transformStats sampleRecords)⟩ 5 =
      .ok (transformStats sampleRecords) ∧
    get_top_n ⟨some sampleRecords, some (transformStats sampleRecords)⟩ 2 =
      .ok ((transformStats sampleRecords).take 2) := by
  have hlen : (transformStats sampleRecords).length = 3 := by
    with_unfolding_all rfl
  exact ⟨(top_n_clamps_to_driver_count sampleRecords 5).1 (by omega),
         (top_n_clamps_to_driver_count sampleRecords 2).2 (by omega)⟩

/-- C9: for every input and requested count `n ≥ 0`, the structured
summary reports the full distinct-driver count and the full input
record count, alongside `min n K` top rows. -/
theorem summary_totals (data : List LapRecord) (n : ℕ) :
    load_json ⟨some data, some (transformStats data)⟩ (n : ℤ) =
      .ok ⟨(transformStats data).take n, (transformStats data).length,
           data.length⟩ ∧
    ((transformStats data).take n).length =
      min n (transformStats data).length ∧
    (transformStats data).length = (data.map Prod.fst).dedup.length := by
  refine ⟨?_, List.length_take n _, transformStats_length data⟩
  simp only [load_json, get_top_n, Except.map, dfHead, Option.getD_some]
  rw [if_pos (Int.natCast_nonneg n), Int.toNat_natCast]

theorem summary_totals_witness :
    load_json ⟨some sampleRecords, some (transformStats sampleRecords)⟩
        ((3 : ℕ) : ℤ) =
      .ok ⟨(transformStats sampleRecords).take 3,
           (transformStats sampleRecords).length, sampleRecords.length⟩ ∧
    ((transformStats sampleRecords).take 3).length =
      min 3 (transformStats sampleRecords).length ∧
    (transformStats sampleRecords).length =
      (sampleRecords.map Prod.fst).dedup.length :=
  summary_totals sampleRecords 3

/-- C10: `get_top_n` accepts non-positive counts without error:
`n = 0` yields zero rows, and `n < 0` yields all rows except the last
`|n|` (zero rows once `|n| ≥ K`), mirroring `DataFrame.head`. -/
theorem top_n_nonpositive (data : List LapRecord) (n : ℤ) :
    (n = 0 → get_top_n ⟨some data, some (transformStats data)⟩ n = .ok []) ∧
    (n < 0 → get_top_n ⟨some data, some (transformStats data)⟩ n =
      .ok ((transformStats data).take
        ((transformStats data).length - (-n).toNat))) := by
  constructor
  · rintro rfl
    show Except.ok (dfHead 0 (transformStats data)) = _
    unfold dfHead
    simp
  · intro hn
    show Except.ok (dfHead n (transformStats data)) = _
    unfold dfHead
    rw [if_neg (by omega)]

theorem top_n_nonpositive_witness :
    get_top_n ⟨some sampleRecords, some (transformStats sampleRecords)⟩ 0 =
      .ok [] ∧
    get_top_n ⟨some sampleRecords, some (transformStats sampleRecords)⟩ (-1) =
      .ok ((transformStats sampleRecords).take
        ((transformStats sampleRecords).length - (-(-1) : ℤ).toNat)) :=
  ⟨(top_n_nonpositive sampleRecords 0).1 rfl,
   (top_n_nonpositive sampleRecords (-1)).2 (by norm_num)⟩

/-- C3: `validate_data` fails with the schema error iff a required
column is missing; with the empty-input error iff the columns are
present but the table has zero rows; with the type error iff,
additionally, some `Time` cell is non-numeric; with the range error
iff, additionally, some `Time` value is negative; and returns `true`
iff all four rules hold — so the first violated rule decides the
outcome. -/
theorem validate_data_rules (f : RawFrame) :
    (validate_data f = .error .schemaError ↔
      ¬ ("Driver" ∈ f.names ∧ "Time" ∈ f.names)) ∧
    (validate_data f = .error .emptyInputError ↔
      ("Driver" ∈ f.names ∧ "Time" ∈ f.names) ∧ f.nrows = 0) ∧
    (validate_data f = .error .typeError ↔
      ("Driver" ∈ f.names ∧ "Time" ∈ f.names) ∧ f.nrows ≠ 0 ∧
        ¬ ∀ v ∈ f.col "Time", v.isNum = true) ∧
    (validate_data f = .error .rangeError ↔
      ("Driver" ∈ f.names ∧ "Time" ∈ f.names) ∧ f.nrows ≠ 0 ∧
        (∀ v ∈ f.col "Time", v.isNum = true) ∧
        ∃ v ∈ f.col "Time", v.toQ < 0) ∧
    (validate_data f = .ok true ↔
      ("Driver" ∈ f.names ∧ "Time" ∈ f.names) ∧ f.nrows ≠ 0 ∧
        (∀ v ∈ f.col "Time", v.isNum = true) ∧
        ¬ ∃ v ∈ f.col "Time", v.toQ < 0) := by
  have hempty : "Driver" ∈ f.names → (f.isEmpty = true ↔ f.nrows = 0) := by
    intro hd
    rcases f with ⟨cols⟩
    cases cols with
    | nil => simp [RawFrame.names] at hd
    | cons c cs => simp [RawFrame.isEmpty, RawFrame.nrows]
  unfold validate_data
  split_ifs with h1 h2 h3 h4 <;>
    refine ⟨?_, ?_, ?_, ?_, ?_⟩ <;>
      simp_all [List.all_eq_true, List.any_eq_true]

theorem validate_data_rules_witness :
    (validate_data ⟨[("Driver", [.str "Hamilton"]), ("Time", [.num 4.32])]⟩ =
        .error .schemaError ↔
      ¬ ("Driver" ∈ (RawFrame.mk [("Driver", [.str "Hamilton"]),
            ("Time", [.num 4.32])]).names ∧
         "Time" ∈ (RawFrame.mk [("Driver", [.str "Hamilton"]),
            ("Time", [.num 4.32])]).names)) ∧
    (validate_data ⟨[("Driver", [.str "Hamilton"]), ("Time", [.num 4.32])]⟩ =
        .error .emptyInputError ↔
      ("Driver" ∈ (RawFrame.mk [("Driver", [.str "Hamilton"]),
            ("Time", [.num 4.32])]).names ∧
       "Time" ∈ (RawFrame.mk [("Driver", [.str "Hamilton"]),
            ("Time", [.num 4.32])]).names) ∧
      (RawFrame.mk [("Driver", [.str "Hamilton"]),
            ("Time", [.num 4.32])]).nrows = 0) ∧
    (validate_data ⟨[("Driver", [.str "Hamilton"]), ("Time", [.num 4.32])]⟩ =
        .error .typeError ↔
      ("Driver" ∈ (RawFrame.mk [("Driver", [.str "Hamilton"]),
            ("Time", [.num 4.32])]).names ∧
       "Time" ∈ (RawFrame.mk [("Driver", [.str "Hamilton"]),
            ("Time", [.num 4.32])]).names) ∧
      (RawFrame.mk [("Driver", [.str "Hamilton"]),
            ("Time", [.num 4.32])]).nrows ≠ 0 ∧
      ¬ ∀ v ∈ (RawFrame.mk [("Driver", [.str "Hamilton"]),
            ("Time", [.num 4.32])]).col "Time", v.isNum = true) ∧
    (validate_data ⟨[("Driver", [.str "Hamilton"]), ("Time", [.num 4.32])]⟩ =
        .error .rangeError ↔
      ("Driver" ∈ (RawFrame.mk [("Driver", [.str "Hamilton"]),
            ("Time", [.num 4.32])]).names ∧
       "Time" ∈ (RawFrame.mk [("Driver", [.str "Hamilton"]),
            ("Time", [.num 4.32])]).names) ∧
      (RawFrame.mk [("Driver", [.str "Hamilton"]),
            ("Time", [.num 4.32])]).nrows ≠ 0 ∧
      (∀ v ∈ (RawFrame.mk [("Driver", [.str "Hamilton"]),
            ("Time", [.num 4.32])]).col "Time", v.isNum = true) ∧
      ∃ v ∈ (RawFrame.mk [("Driver", [.str "Hamilton"]),
            ("Time", [.num 4.32])]).col "Time", v.toQ < 0) ∧
    (validate_data ⟨[("Driver", [.str "Hamilton"]), ("Time", [.num 4.32])]⟩ =
        .ok true ↔
      ("Driver" ∈ (RawFrame.mk [("Driver", [.str "Hamilton"]),
            ("Time", [.num 4.32])]).names ∧
       "Time" ∈ (RawFrame.mk [("Driver", [.str "Hamilton"]),
            ("Time", [.num 4.32])]).names) ∧
      (RawFrame.mk [("Driver", [.str "Hamilton"]),
            ("Time", [.num 4.32])]).nrows ≠ 0 ∧
      (∀ v ∈ (RawFrame.mk [("Driver", [.str "Hamilton"]),
            ("Time", [.num 4.32])]).col "Time", v.isNum = true) ∧
      ¬ ∃ v ∈ (RawFrame.mk [("Driver", [.str "Hamilton"]),
            ("Time", [.num 4.32])]).col "Time", v.toQ < 0) :=
  validate_data_rules ⟨[("Driver", [.str "Hamilton"]), ("Time", [.num 4.32])]⟩

end F1
